import Mathlib

/-!
Shallow embedding of the command dispatch, correlation, retry and
failure-isolation layer of the browser-controller MCP server.

Sources embedded here:
* `src/types/index.ts` (error codes, categories, retry strategy shape)
* `src/error/error-handler.ts` (categorizeError, shouldRetry, calculateRetryDelay,
  createDefaultErrorHandlerConfig)
* `src/error/retry-manager.ts` (circuit breaker table, executeWithRetry,
  createRetryManager)
* `src/state/client-manager.ts` (client registry)
* `src/server.ts` (pending-command correlation, handleResponse, the pending
  timeout callback, handleDisconnection, cleanupStaleConnections,
  validateCommand, checkRateLimit, handleCommand, the tools/call branch of
  handleMCPProtocol)

Numbers that are JavaScript numbers are modelled as `Int`/`Nat` where the code
only ever adds or compares, and as `Rat` where the code multiplies by a
fractional factor (retry backoff and jitter).  JavaScript `Map`s are modelled
as association lists with unique keys.  Timers and promise settlement are
modelled as explicit events: a timer that has been cleared or has already
fired cannot fire again (this is exactly the Node.js runtime semantics), and
settlement of a pending command is recorded as an emitted `Resolution` value.
-/

namespace BrowserMCP

/-- Error codes, from the `ErrorCode` enum in `src/types/index.ts`. -/
inductive ErrorCode where
  | TIMEOUT
  | NETWORK_ERROR
  | CLOUDFLARE_BLOCK
  | SELECTOR_NOT_FOUND
  | INVALID_PARAMS
  | AUTHENTICATION_FAILED
  | RATE_LIMIT_EXCEEDED
  | COMMAND_FAILED
  | ELEMENT_NOT_FOUND
  | ELEMENT_NOT_VISIBLE
  | ELEMENT_NOT_INTERACTABLE
  | NAVIGATION_FAILED
  | PERMISSION_DENIED
  | INVALID_URL
  | TAB_NOT_FOUND
  | STORAGE_ERROR
  | COOKIE_ERROR
  | SCRIPT_ERROR
  | UNKNOWN
deriving DecidableEq, BEq, Repr, Fintype

/-- Error categories, from the `ErrorCategory` enum in `src/types/index.ts`. -/
inductive ErrorCategory where
  | NETWORK
  | SELECTOR
  | PERMISSION
  | TIMEOUT
  | VALIDATION
  | SYSTEM
deriving DecidableEq, Repr

/-- Retry strategy record, from the `RetryStrategy` interface in
`src/types/index.ts`.  Delay fields are rationals because the code multiplies
them by a fractional backoff multiplier and by a random jitter factor. -/
structure RetryStrategy where
  maxRetries : Nat
  baseDelay : Rat
  maxDelay : Rat
  backoffMultiplier : Rat
  retryableErrors : List ErrorCode
deriving DecidableEq, Repr

/-- `ErrorHandler.categorizeError` from `src/error/error-handler.ts`,
including its SYSTEM default arm. -/
def categorizeError (errorCode : ErrorCode) : ErrorCategory :=
  match errorCode with
  | .NETWORK_ERROR => .NETWORK
  | .CLOUDFLARE_BLOCK => .NETWORK
  | .NAVIGATION_FAILED => .NETWORK
  | .SELECTOR_NOT_FOUND => .SELECTOR
  | .ELEMENT_NOT_FOUND => .SELECTOR
  | .ELEMENT_NOT_VISIBLE => .SELECTOR
  | .ELEMENT_NOT_INTERACTABLE => .SELECTOR
  | .PERMISSION_DENIED => .PERMISSION
  | .TAB_NOT_FOUND => .PERMISSION
  | .TIMEOUT => .TIMEOUT
  | .INVALID_PARAMS => .VALIDATION
  | .INVALID_URL => .VALIDATION
  | .STORAGE_ERROR => .SYSTEM
  | .COOKIE_ERROR => .SYSTEM
  | .SCRIPT_ERROR => .SYSTEM
  | .UNKNOWN => .SYSTEM
  | _ => .SYSTEM

/-- `ErrorHandler.shouldRetry` from `src/error/error-handler.ts`:
`if (retryCount >= strategy.maxRetries) return false;
 return strategy.retryableErrors.includes(errorCode);`. -/
def shouldRetry (errorCode : ErrorCode) (retryCount : Nat)
    (strategy : RetryStrategy) : Bool :=
  if strategy.maxRetries ≤ retryCount then false
  else strategy.retryableErrors.contains errorCode

/-- The capped exponential delay `min(baseDelay * multiplier^retryCount, maxDelay)`
computed by the first statement of `ErrorHandler.calculateRetryDelay`. -/
def preJitterDelay (strategy : RetryStrategy) (retryCount : Nat) : Rat :=
  min (strategy.baseDelay * strategy.backoffMultiplier ^ retryCount)
    strategy.maxDelay

/-- `ErrorHandler.calculateRetryDelay` from `src/error/error-handler.ts`:
`jitter = Math.random() * 0.1 * delay; return Math.floor(delay + jitter)`.
The value of `Math.random()` (in `[0,1)`) is passed in as `rand`. -/
def calculateRetryDelay (strategy : RetryStrategy) (retryCount : Nat)
    (rand : Rat) : Int :=
  let delay := preJitterDelay strategy retryCount
  let jitter := rand * (1 / 10) * delay
  ⌊delay + jitter⌋

/-- Error-handler configuration: the default strategy plus per-command
strategies (`ErrorHandlerConfig` in `src/error/error-handler.ts`; the logger
and fallback tables carry no control-flow weight for the embedded functions). -/
structure ErrorHandlerConfig where
  defaultRetryStrategy : RetryStrategy
  commandRetryStrategies : List (String × RetryStrategy)

/-- Association-list lookup, modelling JavaScript `Map.get`. -/
def lookupKey {α : Type} : List (String × α) → String → Option α
  | [], _ => none
  | (k, v) :: rest, key => if k = key then some v else lookupKey rest key

/-- Association-list update, modelling JavaScript `Map.set` (overwrite the
existing entry if the key is present, append otherwise). -/
def setKey {α : Type} : List (String × α) → String → α → List (String × α)
  | [], key, v => [(key, v)]
  | (k, w) :: rest, key, v =>
    if k = key then (k, v) :: rest else (k, w) :: setKey rest key v

/-- Association-list removal, modelling JavaScript `Map.delete`. -/
def eraseKey {α : Type} : List (String × α) → String → List (String × α)
  | [], _ => []
  | (k, w) :: rest, key =>
    if k = key then rest else (k, w) :: eraseKey rest key

/-- `ErrorHandler.getRetryStrategy`: the per-command strategy if registered,
otherwise the default strategy. -/
def getRetryStrategy (cfg : ErrorHandlerConfig) (command : String) :
    RetryStrategy :=
  (lookupKey cfg.commandRetryStrategies command).getD cfg.defaultRetryStrategy

/-- The default retry strategy literal, appearing identically in
`createDefaultErrorHandlerConfig` (error-handler.ts) and in
`createRetryManager` (retry-manager.ts). -/
def defaultRetryStrategy : RetryStrategy :=
  { maxRetries := 3
    baseDelay := 1000
    maxDelay := 10000
    backoffMultiplier := 2
    retryableErrors :=
      [.TIMEOUT, .NETWORK_ERROR, .SELECTOR_NOT_FOUND, .ELEMENT_NOT_FOUND,
       .ELEMENT_NOT_VISIBLE, .ELEMENT_NOT_INTERACTABLE, .NAVIGATION_FAILED,
       .CLOUDFLARE_BLOCK] }

/-- The `navigate` strategy from `createDefaultErrorHandlerConfig`. -/
def navigateRetryStrategy : RetryStrategy :=
  { maxRetries := 5
    baseDelay := 2000
    maxDelay := 15000
    backoffMultiplier := 2
    retryableErrors :=
      [.NETWORK_ERROR, .CLOUDFLARE_BLOCK, .NAVIGATION_FAILED, .TIMEOUT] }

/-- The `click` strategy from `createDefaultErrorHandlerConfig`
(backoff multiplier 1.5). -/
def clickRetryStrategy : RetryStrategy :=
  { maxRetries := 3
    baseDelay := 500
    maxDelay := 3000
    backoffMultiplier := 3 / 2
    retryableErrors :=
      [.SELECTOR_NOT_FOUND, .ELEMENT_NOT_FOUND, .ELEMENT_NOT_VISIBLE,
       .ELEMENT_NOT_INTERACTABLE] }

/-- The `extract` strategy from `createDefaultErrorHandlerConfig`. -/
def extractRetryStrategy : RetryStrategy :=
  { maxRetries := 2
    baseDelay := 1000
    maxDelay := 5000
    backoffMultiplier := 2
    retryableErrors := [.SELECTOR_NOT_FOUND, .ELEMENT_NOT_FOUND, .TIMEOUT] }

/-- `createDefaultErrorHandlerConfig` from `src/error/error-handler.ts`. -/
def createDefaultErrorHandlerConfig : ErrorHandlerConfig :=
  { defaultRetryStrategy := defaultRetryStrategy
    commandRetryStrategies :=
      [("navigate", navigateRetryStrategy), ("click", clickRetryStrategy),
       ("extract", extractRetryStrategy)] }

/-- The error-handler configuration built inside `createRetryManager`
(`src/error/retry-manager.ts`): the same default strategy, but with an
EMPTY per-command strategy map. -/
def createRetryManagerErrorConfig : ErrorHandlerConfig :=
  { defaultRetryStrategy := defaultRetryStrategy
    commandRetryStrategies := [] }

/-- Circuit breaker states, from the union type in `src/error/retry-manager.ts`. -/
inductive CBState where
  | CLOSED
  | OPEN
  | HALF_OPEN
deriving DecidableEq, Repr

/-- One entry of `RetryManager.circuitBreakerState`. -/
structure CircuitEntry where
  failures : Nat
  lastFailureTime : Int
  state : CBState
deriving DecidableEq, Repr

/-- The circuit breaker table, a JavaScript `Map` keyed by signature. -/
abbrev CBMap : Type := List (String × CircuitEntry)

/-- `RetryManagerConfig` from `src/error/retry-manager.ts` (threshold,
cooldown and the error-handler configuration used by `handleError`). -/
structure RetryManagerConfig where
  errorConfig : ErrorHandlerConfig
  circuitBreakerThreshold : Nat
  circuitBreakerTimeout : Int

/-- The retry manager built by `createRetryManager` in
`src/error/retry-manager.ts`: threshold 5, cooldown 60000 ms, and the
error-handler configuration with an empty per-command strategy map.  This is
the instance wired into the live server by `src/index.ts`. -/
def createRetryManagerConfig : RetryManagerConfig :=
  { errorConfig := createRetryManagerErrorConfig
    circuitBreakerThreshold := 5
    circuitBreakerTimeout := 60000 }

/-- The circuit breaker key computed at the top of `executeWithRetry`:
`` `${command}_${JSON.stringify(params)}` ``.  Parameters enter the model
already JSON-serialized. -/
def circuitBreakerKey (command paramsJson : String) : String :=
  command ++ "_" ++ paramsJson

/-- `RetryManager.isCircuitBreakerOpen`.  The check itself can mutate the
table (an OPEN entry whose cooldown has elapsed moves to HALF_OPEN and the
check returns false), so the model returns the updated table alongside the
boolean. -/
def isCircuitBreakerOpen (cfg : RetryManagerConfig) (now : Int) (cb : CBMap)
    (key : String) : Bool × CBMap :=
  match lookupKey cb key with
  | none => (false, cb)
  | some st =>
    if st.state = CBState.OPEN then
      if cfg.circuitBreakerTimeout < now - st.lastFailureTime then
        (false, setKey cb key { st with state := CBState.HALF_OPEN })
      else
        (true, cb)
    else
      (false, cb)

/-- `RetryManager.recordFailure`: get-or-default the entry, increment the
failure count, stamp the failure time, and open the breaker once the count
reaches the threshold. -/
def recordFailure (cfg : RetryManagerConfig) (now : Int) (cb : CBMap)
    (key : String) : CBMap :=
  let st := (lookupKey cb key).getD
    { failures := 0, lastFailureTime := 0, state := CBState.CLOSED }
  let st1 := { st with failures := st.failures + 1, lastFailureTime := now }
  let st2 :=
    if cfg.circuitBreakerThreshold ≤ st1.failures then
      { st1 with state := CBState.OPEN }
    else st1
  setKey cb key st2

/-- `RetryManager.resetCircuitBreaker`: on success, if an entry exists for
the key, zero its failure count and force the state to CLOSED. -/
def resetCircuitBreaker (cb : CBMap) (key : String) : CBMap :=
  match lookupKey cb key with
  | none => cb
  | some st =>
    setKey cb key { st with failures := 0, state := CBState.CLOSED }

/-- The two failure shapes `executeWithRetry` can raise to its caller: the
circuit-open short-circuit thrown before any attempt, or the last
operation error once retries are exhausted or the error is non-retryable. -/
inductive RetryError where
  | circuitOpen (command : String)
  | opFailed (e : ErrorCode)
deriving DecidableEq, Repr

/-- Result of one `executeWithRetry` invocation: the outcome, the circuit
breaker table afterwards, and how many times the operation was invoked. -/
structure RetryResult (T : Type) where
  result : Except RetryError T
  cb : CBMap
  attempts : Nat

/-- The `while (true)` attempt loop inside `executeWithRetry`.  The executor
is indexed by the attempt number (`retryCount` in the source) and yields
either a value or the error code that `ErrorHandler.handleError` extracts
from the thrown error.  Sleeping between attempts does not touch the breaker
table, so the backoff sleep is not part of the state.  Termination: once
`retryCount` reaches `strategy.maxRetries`, `shouldRetry` returns false and
the loop exits. -/
def retryLoop {T : Type} (cfg : RetryManagerConfig) (now : Int)
    (strategy : RetryStrategy) (key : String)
    (executor : Nat → Except ErrorCode T) (cb : CBMap) (retryCount : Nat) :
    RetryResult T :=
  match executor retryCount with
  | .ok v =>
    { result := .ok v, cb := resetCircuitBreaker cb key,
      attempts := retryCount + 1 }
  | .error e =>
    if h : shouldRetry e retryCount strategy = true then
      retryLoop cfg now strategy key executor cb (retryCount + 1)
    else
      { result := .error (.opFailed e), cb := recordFailure cfg now cb key,
        attempts := retryCount + 1 }
termination_by strategy.maxRetries + 1 - retryCount
decreasing_by
  simp only [shouldRetry] at h
  split at h
  · exact absurd h (by simp)
  · omega

/-- `RetryManager.executeWithRetry` from `src/error/retry-manager.ts`:
compute the signature, short-circuit if the breaker is open, otherwise run
the attempt loop starting at retry count 0. -/
def executeWithRetry {T : Type} (cfg : RetryManagerConfig) (now : Int)
    (command paramsJson : String) (executor : Nat → Except ErrorCode T)
    (cb : CBMap) : RetryResult T :=
  let key := circuitBreakerKey command paramsJson
  let strategy := getRetryStrategy cfg.errorConfig command
  let checkRes := isCircuitBreakerOpen cfg now cb key
  if checkRes.1 then
    { result := .error (.circuitOpen command), cb := checkRes.2, attempts := 0 }
  else
    retryLoop cfg now strategy key executor checkRes.2 0

/-- A JSON value, the shape of dynamically-typed message fields
(`message.params` and friends). -/
inductive JVal where
  | jnull
  | jbool (b : Bool)
  | jnum (n : Int)
  | jstr (s : String)
  | jarr (elems : List JVal)
  | jobj (fields : List (String × JVal))

/-- JavaScript truthiness of a JSON value (`!command.params`). -/
def truthy : JVal → Bool
  | .jnull => false
  | .jbool b => b
  | .jnum n => decide (n ≠ 0)
  | .jstr s => decide (s ≠ "")
  | .jarr _ => true
  | .jobj _ => true

/-- JavaScript `typeof v === "object"` for a JSON value (true for objects,
arrays and null). -/
def typeofObject : JVal → Bool
  | .jnull => true
  | .jarr _ => true
  | .jobj _ => true
  | _ => false

/-- The per-client rate-limit window (`ClientState.rateLimit`). -/
structure RateLimitState where
  requests : Nat
  windowStart : Int
deriving DecidableEq, Repr

/-- The fields of `ClientState` (src/types/index.ts) that the embedded
server logic reads or writes: liveness timestamps and the rate-limit
window.  (`activeCommands`, `commandHistory` and `apiKey` are written once
at registration and never consulted by the embedded control flow.) -/
structure ClientState where
  connected : Bool
  connectedAt : Int
  lastHeartbeat : Int
  lastActivity : Int
  rateLimit : RateLimitState
deriving DecidableEq, Repr

/-- An `MCPCommand` as built by `Server.handleCommand`; only the fields the
embedded logic consults (validation and queue priority). -/
structure MCPCommand where
  id : String
  type : String
  params : JVal
  priority : String

/-- Settlements of a pending command's promise, as observable effects:
`resolve(data)` on a successful reply, `reject(new Error(...))` on a failed
reply, and `reject(new Error("Command timeout"))` from the timeout timer.
There is no disconnect-triggered settlement anywhere in `server.ts`. -/
inductive Resolution where
  | resolved (id : String)
  | rejectedFailure (id : String)
  | rejectedTimeout (id : String)
deriving DecidableEq, Repr

/-- The mutable server state relevant to the embedded handlers: the client
registry (`ClientManager.clients`), the ids of the pending-command map
(`Server.pendingCommands` — the stored values are promise callbacks plus the
timer handle, so an id's presence is the entry), the ids whose 30-second
timeout timer is still armed (a timer leaves this set exactly when it is
cleared by `clearTimeout` or when it fires), and the command queue. -/
structure ServerState where
  clients : List (String × ClientState)
  pendings : List String
  timers : List String
  queue : List MCPCommand

/-- Remove the first occurrence of an id (JavaScript `Map.delete` on a map
whose keys are unique). -/
def removeId : List String → String → List String
  | [], _ => []
  | x :: rest, id => if x = id then rest else x :: removeId rest id

/-- `ClientManager.updateClientState` restricted to the update object
`{ lastActivity: now }` used by `handleResponse`. -/
def updateClientActivity (clients : List (String × ClientState))
    (clientId : String) (now : Int) : List (String × ClientState) :=
  match lookupKey clients clientId with
  | none => clients
  | some c => setKey clients clientId { c with lastActivity := now }

/-- `ClientManager.updateClientState` restricted to the update object
`{ lastHeartbeat: now, lastActivity: now }` used by `handleHeartbeat`. -/
def updateClientLiveness (clients : List (String × ClientState))
    (clientId : String) (now : Int) : List (String × ClientState) :=
  match lookupKey clients clientId with
  | none => clients
  | some c =>
    setKey clients clientId { c with lastHeartbeat := now, lastActivity := now }

/-- `Server.handleAuth`: registration always succeeds and stores a fresh
client state with a zeroed rate-limit window. -/
def handleAuth (now : Int) (clientId : String) (st : ServerState) :
    ServerState × List Resolution :=
  let fresh : ClientState :=
    { connected := true, connectedAt := now, lastHeartbeat := now,
      lastActivity := now,
      rateLimit := { requests := 0, windowStart := now } }
  ({ st with clients := setKey st.clients clientId fresh }, [])

/-- `Server.handleHeartbeat`: refresh liveness timestamps. -/
def handleHeartbeat (now : Int) (clientId : String) (st : ServerState) :
    ServerState × List Resolution :=
  ({ st with clients := updateClientLiveness st.clients clientId now }, [])

/-- `Server.handleResponse` (src/server.ts): refresh the sender's
last-activity timestamp, then, if a pending command with the reply's
correlation id exists, clear its timer, delete the entry and settle the
promise (resolve on success, reject on failure).  If no entry exists —
the id was already settled by a reply or by its timeout — nothing at all
happens to the pending map and no settlement is emitted. -/
def handleResponse (now : Int) (clientId id : String) (success : Bool)
    (st : ServerState) : ServerState × List Resolution :=
  let st1 := { st with clients := updateClientActivity st.clients clientId now }
  if st1.pendings.contains id then
    ({ st1 with pendings := removeId st1.pendings id,
                timers := removeId st1.timers id },
     [if success then Resolution.resolved id else Resolution.rejectedFailure id])
  else
    (st1, [])

/-- The timeout callback registered in the tools/call executor of
`handleMCPProtocol`: `this.pendingCommands.delete(command.id);
reject(new Error("Command timeout"))`.  The guard on `timers` models the
Node.js runtime: a timer fires only if it is still armed (it was neither
cleared by `clearTimeout` in `handleResponse` nor already fired), and firing
disarms it. -/
def firePendingTimeout (id : String) (st : ServerState) :
    ServerState × List Resolution :=
  if st.timers.contains id then
    ({ st with pendings := removeId st.pendings id,
               timers := removeId st.timers id },
     [Resolution.rejectedTimeout id])
  else
    (st, [])

/-- The promise setup in the tools/call executor: arm a 30-second timer and
store the pending entry under the fresh command id. -/
def registerPending (id : String) (st : ServerState) :
    ServerState × List Resolution :=
  ({ st with pendings := id :: st.pendings, timers := id :: st.timers }, [])

/-- `Server.handleDisconnection` (src/server.ts): log and remove the client
from the registry.  It does not touch `pendingCommands` or any timer. -/
def handleDisconnection (clientId : String) (st : ServerState) :
    ServerState × List Resolution :=
  ({ st with clients := eraseKey st.clients clientId }, [])

/-- `Server.cleanupStaleConnections` (src/server.ts): remove every client
whose last heartbeat is older than 120000 ms.  It does not touch
`pendingCommands` or any timer. -/
def cleanupStaleConnections (now : Int) (st : ServerState) :
    ServerState × List Resolution :=
  ({ st with clients :=
      st.clients.filter (fun kc => !(decide (120000 < now - kc.2.lastHeartbeat))) },
   [])

/-- The closed command-kind enumeration from `Server.validateCommand`. -/
def validTypes : List String :=
  ["navigate", "click", "extract", "extract_data", "extract_table",
   "extract_links", "extract_images", "extract_text", "extract_attribute",
   "type", "select", "check", "hover", "scroll", "dragDrop", "upload",
   "evaluate", "reload", "goBack", "goForward", "newTab", "closeTab",
   "switchTab", "getTabs", "getCookies", "setCookie", "deleteCookie",
   "clearCookies", "getLocalStorage", "setLocalStorage", "getSessionStorage",
   "setSessionStorage", "clearStorage", "wait", "waitForSelector",
   "waitForText", "waitForNavigation", "waitForNetworkIdle", "analyze",
   "screenshot"]

/-- `Server.validateCommand`: the kind must be in the closed enumeration and
the params must be a truthy value of JavaScript type object. -/
def validateCommand (command : MCPCommand) : Bool :=
  validTypes.contains command.type &&
  (truthy command.params && typeofObject command.params)

/-- `Server.checkRateLimit` (src/server.ts): deny when the client is
unknown; reset the window when more than `windowMs` has elapsed since the
window start; deny once the counter has reached `maxRequests`; otherwise
increment the counter and allow. -/
def checkRateLimit (now : Int) (clientId : String) (st : ServerState) :
    Bool × ServerState :=
  match lookupKey st.clients clientId with
  | none => (false, st)
  | some client =>
    let client1 :=
      if 60000 < now - client.rateLimit.windowStart then
        { client with rateLimit := { requests := 0, windowStart := now } }
      else client
    if 100 ≤ client1.rateLimit.requests then
      (false, { st with clients := setKey st.clients clientId client1 })
    else
      let client2 : ClientState :=
        { client1 with rateLimit :=
          { client1.rateLimit with
            requests := client1.rateLimit.requests + 1 } }
      (true, { st with clients := setKey st.clients clientId client2 })

/-- `CommandQueue.getPriorityValue`: high 0, normal 1, low 2, default 1. -/
def getPriorityValue (priority : String) : Nat :=
  if priority = "high" then 0
  else if priority = "normal" then 1
  else if priority = "low" then 2
  else 1

/-- Stable insertion into a priority-sorted queue.  `CommandQueue.enqueue`
pushes and then runs `Array.prototype.sort` (stable) with the comparator
`getPriorityValue(a) - getPriorityValue(b)`; on a queue already sorted by
priority this is stable insertion of the new command after its equals. -/
def insertByPriority (cmd : MCPCommand) : List MCPCommand → List MCPCommand
  | [] => [cmd]
  | c :: rest =>
    if getPriorityValue c.priority ≤ getPriorityValue cmd.priority then
      c :: insertByPriority cmd rest
    else
      cmd :: c :: rest

/-- The three exits of `Server.handleCommand`: synchronous rejection with
an INVALID_PARAMS error frame, synchronous rejection with a
RATE_LIMIT_EXCEEDED error frame, or enqueueing onto the command queue. -/
inductive CommandOutcome where
  | rejectedInvalid
  | rejectedRateLimit
  | queued
deriving DecidableEq, Repr

/-- The inbound `command` frame fields that `Server.handleCommand` reads
(each optional field defaulted exactly as in the source). -/
structure InboundCommandMsg where
  id : Option String
  command : Option String
  msgType : String
  params : Option JVal
  priority : Option String

/-- `Server.handleCommand` (src/server.ts): build the `MCPCommand` with the
source's defaults (`message.command || message.type`, `message.params || {}`,
`message.priority || "normal"`), then validate, then rate-limit, then
enqueue.  Validation failure returns before the rate limit is consulted and
before anything is enqueued.  `genId` stands for `generateCommandId()`. -/
def handleCommand (now : Int) (clientId genId : String)
    (msg : InboundCommandMsg) (st : ServerState) :
    ServerState × CommandOutcome :=
  let command : MCPCommand :=
    { id := msg.id.getD genId
      type := msg.command.getD msg.msgType
      params := msg.params.getD (JVal.jobj [])
      priority := msg.priority.getD "normal" }
  if !validateCommand command then
    (st, .rejectedInvalid)
  else
    let rl := checkRateLimit now clientId st
    if !rl.1 then
      (rl.2, .rejectedRateLimit)
    else
      ({ rl.2 with queue := insertByPriority command rl.2.queue }, .queued)

/-- The units of work of the event-driven dispatch loop that touch the
client registry or the pending-command map: each inbound frame kind, the
pending-command registration and timeout firing from the tools/call
executor, a transport close, and a heartbeat sweep tick. -/
inductive ServerEvent where
  | auth (now : Int) (clientId : String)
  | heartbeat (now : Int) (clientId : String)
  | command (now : Int) (clientId genId : String) (msg : InboundCommandMsg)
  | registerPendingEv (id : String)
  | response (now : Int) (clientId id : String) (success : Bool)
  | pendingTimeout (id : String)
  | disconnect (clientId : String)
  | sweep (now : Int)

/-- Dispatch one event to its handler, returning the new state and the
pending-command settlements the event caused. -/
def serverStep (e : ServerEvent) (st : ServerState) :
    ServerState × List Resolution :=
  match e with
  | .auth now clientId => handleAuth now clientId st
  | .heartbeat now clientId => handleHeartbeat now clientId st
  | .command now clientId genId msg =>
    ((handleCommand now clientId genId msg st).1, [])
  | .registerPendingEv id => registerPending id st
  | .response now clientId id success => handleResponse now clientId id success st
  | .pendingTimeout id => firePendingTimeout id st
  | .disconnect clientId => handleDisconnection clientId st
  | .sweep now => cleanupStaleConnections now st

/-- Run a list of events in order, accumulating settlements. -/
def serverRun : List ServerEvent → ServerState → ServerState × List Resolution
  | [], st => (st, [])
  | e :: evs, st =>
    let r := serverStep e st
    let r2 := serverRun evs r.1
    (r2.1, r.2 ++ r2.2)

/-- `e` is a settlement-side event for correlation id `id`: an inbound reply
carrying that id, or that id's timeout timer firing. -/
def isResolutionEventFor (e : ServerEvent) (id : String) : Prop :=
  (∃ now clientId success, e = .response now clientId id success) ∨
  e = .pendingTimeout id

/-- `e` registers a fresh pending entry under `id`. -/
def registersId (e : ServerEvent) (id : String) : Prop :=
  e = .registerPendingEv id

/-- Correlation id `id` has neither a pending entry nor an armed timer. -/
def idAbsent (st : ServerState) (id : String) : Prop :=
  st.pendings.contains id = false ∧ st.timers.contains id = false

/-- Drop the first occurrence of `pat` from `l` (character lists). -/
def removeFirstSub (pat : List Char) : List Char → List Char
  | [] => []
  | c :: cs =>
    if pat.isPrefixOf (c :: cs) then (c :: cs).drop pat.length
    else c :: removeFirstSub pat cs

/-- JavaScript `s.replace(pat, "")` for a plain-string pattern: remove the
first occurrence of `pat` from `s` (used as `name.replace("browser_", "")`
in the tools/call branch). -/
def replaceOnce (s pat : String) : String :=
  ⟨removeFirstSub pat.data s.data⟩

/-- Outcome of a `tools/call` MCP request as seen by the HTTP caller. -/
inductive MCPCallResult (T : Type) where
  | noClients
  | ok (v : T)
  | err (e : RetryError)
deriving DecidableEq, Repr

/-- The `tools/call` branch of `Server.handleMCPProtocol` (src/server.ts):
derive the command kind by stripping the `browser_` tool-name, fail if
no client is connected, and otherwise hand the derived kind and the
JSON-serialized arguments directly to `RetryManager.executeWithRetry` —
there is no call to `validateCommand` and no parameter check on this path.
The executor abstracts the send-and-await-reply closure.  Returns the
caller-visible outcome, the circuit breaker table afterwards, and the
number of times the executor ran. -/
def handleMCPToolCall {T : Type} (cfg : RetryManagerConfig) (now : Int)
    (name argsJson : String) (executor : Nat → Except ErrorCode T)
    (st : ServerState) (cb : CBMap) : MCPCallResult T × CBMap × Nat :=
  let commandType := replaceOnce name "browser_"
  if st.clients.isEmpty then
    (.noClients, cb, 0)
  else
    let r := executeWithRetry cfg now commandType argsJson executor cb
    (match r.result with
     | .ok v => .ok v
     | .error e => .err e, r.cb, r.attempts)

/-! ### Association-list and id-set helper lemmas -/

theorem lookupKey_setKey_self {α : Type} (m : List (String × α)) (k : String)
    (v : α) : lookupKey (setKey m k v) k = some v := by
  induction m with
  | nil => simp [setKey, lookupKey]
  | cons hd tl ih =>
    obtain ⟨k0, v0⟩ := hd
    by_cases h : k0 = k
    · simp [setKey, h, lookupKey]
    · simp [setKey, h, lookupKey, ih]

theorem setKey_self {α : Type} {m : List (String × α)} {k : String} {v : α}
    (h : lookupKey m k = some v) : setKey m k v = m := by
  induction m with
  | nil => simp [lookupKey] at h
  | cons hd tl ih =>
    obtain ⟨k0, v0⟩ := hd
    by_cases hk : k0 = k
    · simp only [lookupKey, if_pos hk, Option.some.injEq] at h
      simp [setKey, hk, h]
    · simp only [lookupKey, if_neg hk] at h
      simp [setKey, hk, ih h]

theorem mem_removeId {l : List String} {x id : String}
    (h : id ∈ removeId l x) : id ∈ l := by
  induction l with
  | nil => simp [removeId] at h
  | cons c rest ih =>
    by_cases hc : c = x
    · simp only [removeId, if_pos hc] at h
      exact List.mem_cons_of_mem _ h
    · simp only [removeId, if_neg hc] at h
      rcases List.mem_cons.mp h with h1 | h1
      · exact h1 ▸ List.mem_cons_self _ _
      · exact List.mem_cons_of_mem _ (ih h1)

theorem contains_removeId_of_not {l : List String} {x id : String}
    (h : l.contains id = false) : (removeId l x).contains id = false := by
  rw [List.contains, List.elem_eq_mem, decide_eq_false_iff_not] at h ⊢
  exact fun hm => h (mem_removeId hm)

theorem not_mem_removeId_self {l : List String} {id : String}
    (h : l.count id ≤ 1) : id ∉ removeId l id := by
  induction l with
  | nil => simp [removeId]
  | cons c rest ih =>
    by_cases hc : c = id
    · subst hc
      simp only [removeId, if_pos rfl]
      intro hm
      have : 1 ≤ rest.count c := List.count_pos_iff.mpr hm
      rw [List.count_cons_self] at h
      omega
    · simp only [removeId, if_neg hc]
      intro hm
      rcases List.mem_cons.mp hm with h1 | h1
      · exact hc h1.symm
      · rw [List.count_cons_of_ne (fun he => hc he.symm)] at h
        exact ih h h1

theorem contains_removeId_self {l : List String} {id : String}
    (h : l.count id ≤ 1) : (removeId l id).contains id = false := by
  rw [List.contains, List.elem_eq_mem, decide_eq_false_iff_not]
  exact not_mem_removeId_self h

theorem contains_cons_ne {l : List String} {x id : String} (hx : x ≠ id)
    (h : l.contains id = false) : (x :: l).contains id = false := by
  rw [List.contains, List.elem_eq_mem, decide_eq_false_iff_not] at h ⊢
  intro hm
  rcases List.mem_cons.mp hm with h1 | h1
  · exact hx h1.symm
  · exact h h1

/-! ### Claim C10 — rate-limit check for an unregistered client -/

/-- Claim C10: a rate-limit check for a client id that is not present in
the client registry returns false (the request is denied) without throwing
and without mutating any state — the returned state is exactly the input
state — so a command from an unregistered client can never consume
rate-limit budget. -/
theorem C10_unknown_client_denied (now : Int) (clientId : String)
    (st : ServerState) (h : lookupKey st.clients clientId = none) :
    checkRateLimit now clientId st = (false, st) := by
  simp [checkRateLimit, h]

/-- Witness for C10 at a concrete state whose registry lacks the id. -/
theorem C10_witness :
    lookupKey (ServerState.mk [] [] [] []).clients "ghost" = none ∧
    checkRateLimit 0 "ghost" (ServerState.mk [] [] [] []) =
      (false, ServerState.mk [] [] [] []) :=
  ⟨rfl, C10_unknown_client_denied 0 "ghost" (ServerState.mk [] [] [] []) rfl⟩

/-! ### Claim C4 — open breaker short-circuits without any mutation -/

/-- Claim C4: if the circuit breaker entry for the command's signature is
OPEN and its cooldown has not elapsed, `executeWithRetry` fails immediately
with a circuit-open error, the operation is invoked zero times, and the
breaker table after the call is exactly the table before it (no failure
recorded, no state transition). -/
theorem C4_circuit_open_short_circuit {T : Type} (cfg : RetryManagerConfig)
    (now : Int) (command paramsJson : String)
    (executor : Nat → Except ErrorCode T) (cb : CBMap) (e : CircuitEntry)
    (hlook : lookupKey cb (circuitBreakerKey command paramsJson) = some e)
    (hopen : e.state = CBState.OPEN)
    (hcool : now - e.lastFailureTime ≤ cfg.circuitBreakerTimeout) :
    executeWithRetry cfg now command paramsJson executor cb =
      { result := .error (.circuitOpen command), cb := cb, attempts := 0 } := by
  simp [executeWithRetry, isCircuitBreakerOpen, hlook, hopen, not_lt.mpr hcool]

/-- Witness for C4: an OPEN entry 100 ms old against the 60000 ms cooldown
of the live configuration; the executor would succeed but is never run. -/
theorem C4_witness :
    lookupKey [("click_p", CircuitEntry.mk 5 100 CBState.OPEN)]
      (circuitBreakerKey "click" "p") =
      some (CircuitEntry.mk 5 100 CBState.OPEN) ∧
    (200 : Int) - 100 ≤ createRetryManagerConfig.circuitBreakerTimeout ∧
    executeWithRetry (T := Unit) createRetryManagerConfig 200 "click" "p"
      (fun _ => .ok ()) [("click_p", CircuitEntry.mk 5 100 CBState.OPEN)] =
      { result := .error (.circuitOpen "click"),
        cb := [("click_p", CircuitEntry.mk 5 100 CBState.OPEN)],
        attempts := 0 } :=
  ⟨by decide, by decide,
   C4_circuit_open_short_circuit createRetryManagerConfig 200 "click" "p"
     (fun _ => .ok ()) [("click_p", CircuitEntry.mk 5 100 CBState.OPEN)]
     (CircuitEntry.mk 5 100 CBState.OPEN) (by decide) rfl (by decide)⟩

/-! ### Claim C5 — breaker opens exactly at the threshold -/

/-- Record one failure per timestamp in `ts`, in order (consecutive
`recordFailure` calls for the same signature). -/
def recordFailuresAt (cfg : RetryManagerConfig) (key : String) :
    List Int → CBMap → CBMap
  | [], cb => cb
  | t :: ts, cb => recordFailuresAt cfg key ts (recordFailure cfg t cb key)

/-- After `recordFailure`, the entry holds the incremented count, the new
timestamp, and OPEN exactly once the count has reached the threshold,
provided the previous state already satisfied that correspondence. -/
theorem recordFailure_lookup_inv (cfg : RetryManagerConfig) (now : Int)
    (cb : CBMap) (key : String) (k : Nat)
    (hinv : match lookupKey cb key with
      | none => k = 0
      | some e => e.failures = k ∧
          e.state = (if cfg.circuitBreakerThreshold ≤ k then CBState.OPEN
            else CBState.CLOSED)) :
    lookupKey (recordFailure cfg now cb key) key =
      some ⟨k + 1, now,
        if cfg.circuitBreakerThreshold ≤ k + 1 then CBState.OPEN
        else CBState.CLOSED⟩ := by
  cases h : lookupKey cb key with
  | none =>
    rw [h] at hinv
    subst hinv
    simp only [recordFailure, h, Option.getD_none]
    rw [lookupKey_setKey_self]
    split <;> simp_all
  | some e =>
    rw [h] at hinv
    obtain ⟨hf, hs⟩ := hinv
    simp only [recordFailure, h, Option.getD_some]
    rw [lookupKey_setKey_self, hf]
    by_cases h5 : cfg.circuitBreakerThreshold ≤ k + 1
    · simp [h5]
    · have hk : ¬ cfg.circuitBreakerThreshold ≤ k := by omega
      simp [h5, hs, hk]

/-- After `n ≥ 1` consecutive recorded failures starting from a signature
that satisfies the count/state correspondence at count `k`, the entry holds
`k + n` failures and is OPEN exactly when `k + n` has reached the
threshold. -/
theorem recordFailuresAt_count (cfg : RetryManagerConfig) (key : String)
    (ts : List Int) :
    ∀ (cb : CBMap) (k : Nat),
      (match lookupKey cb key with
       | none => k = 0
       | some e => e.failures = k ∧
           e.state = (if cfg.circuitBreakerThreshold ≤ k then CBState.OPEN
             else CBState.CLOSED)) →
      ts ≠ [] →
      ∃ e, lookupKey (recordFailuresAt cfg key ts cb) key = some e ∧
        e.failures = k + ts.length ∧
        e.state = (if cfg.circuitBreakerThreshold ≤ k + ts.length then
          CBState.OPEN else CBState.CLOSED) := by
  induction ts with
  | nil => intro cb k _ hne; exact absurd rfl hne
  | cons t rest ih =>
    intro cb k hinv _
    have h1 := recordFailure_lookup_inv cfg t cb key k hinv
    cases rest with
    | nil =>
      refine ⟨⟨k + 1, t,
        if cfg.circuitBreakerThreshold ≤ k + 1 then CBState.OPEN
        else CBState.CLOSED⟩, ?_, by simp, by simp⟩
      simpa [recordFailuresAt] using h1
    | cons t2 rest2 =>
      have h2 := ih (recordFailure cfg t cb key) (k + 1) (by rw [h1]; exact ⟨rfl, rfl⟩)
        (by simp)
      obtain ⟨e, he, hf, hs⟩ := h2
      have hlen : k + 1 + (t2 :: rest2).length = k + (t :: t2 :: rest2).length := by
        simp only [List.length_cons]
        omega
      refine ⟨e, ?_, ?_, ?_⟩
      · simpa [recordFailuresAt] using he
      · rw [hf, hlen]
      · rw [hs, hlen]

/-- Claim C5: with the live configuration (threshold 5), starting from a
signature with no breaker entry, after 1 to 4 consecutive recorded failures
the entry is CLOSED (not OPEN) with the exact count, the 5th consecutive
recorded failure makes it OPEN, and a single recorded success
(`resetCircuitBreaker`) zeroes the count and forces CLOSED for any existing
entry. -/
theorem C5_breaker_opens_at_fifth_failure (ts : List Int) (cb : CBMap)
    (key : String) (hfresh : lookupKey cb key = none) :
    (∀ n, 1 ≤ n → n ≤ 4 → n ≤ ts.length →
      ∃ e, lookupKey
          (recordFailuresAt createRetryManagerConfig key (ts.take n) cb) key =
          some e ∧ e.failures = n ∧ e.state = CBState.CLOSED) ∧
    (5 ≤ ts.length →
      ∃ e, lookupKey
          (recordFailuresAt createRetryManagerConfig key (ts.take 5) cb) key =
          some e ∧ e.failures = 5 ∧ e.state = CBState.OPEN) ∧
    (∀ (cb2 : CBMap) (e2 : CircuitEntry), lookupKey cb2 key = some e2 →
      lookupKey (resetCircuitBreaker cb2 key) key =
        some { e2 with failures := 0, state := CBState.CLOSED }) := by
  refine ⟨?_, ?_, ?_⟩
  · intro n h1 h4 hlen
    have htk : (ts.take n).length = n := by
      simp [Nat.min_eq_left hlen]
    have hne : ts.take n ≠ [] := by
      intro he
      rw [he] at htk
      simp at htk
      omega
    obtain ⟨e, he, hf, hs⟩ :=
      recordFailuresAt_count createRetryManagerConfig key (ts.take n) cb 0
        (by rw [hfresh]) hne
    refine ⟨e, he, ?_, ?_⟩
    · rw [hf, htk]
      omega
    · rw [hs, htk]
      rw [if_neg]
      show ¬ 5 ≤ 0 + n
      simp only [createRetryManagerConfig] at *
      omega
  · intro hlen
    have htk : (ts.take 5).length = 5 := by
      simp [Nat.min_eq_left hlen]
    have hne : ts.take 5 ≠ [] := by
      intro he
      rw [he] at htk
      simp at htk
    obtain ⟨e, he, hf, hs⟩ :=
      recordFailuresAt_count createRetryManagerConfig key (ts.take 5) cb 0
        (by rw [hfresh]) hne
    refine ⟨e, he, ?_, ?_⟩
    · rw [hf, htk]
    · rw [hs, htk]
      simp [createRetryManagerConfig]
  · intro cb2 e2 h2
    simp only [resetCircuitBreaker, h2]
    exact lookupKey_setKey_self ..

/-- Witness for C5 with five concrete failure timestamps: CLOSED with count
4 after four failures, OPEN with count 5 after the fifth, and a success
reset on a concrete entry. -/
theorem C5_witness :
    lookupKey ([] : CBMap) "sig" = none ∧
    (∃ e, lookupKey (recordFailuresAt createRetryManagerConfig "sig"
        (([10, 20, 30, 40, 50] : List Int).take 4) []) "sig" =
        some e ∧ e.failures = 4 ∧ e.state = CBState.CLOSED) ∧
    (∃ e, lookupKey (recordFailuresAt createRetryManagerConfig "sig"
        (([10, 20, 30, 40, 50] : List Int).take 5) []) "sig" =
        some e ∧ e.failures = 5 ∧ e.state = CBState.OPEN) ∧
    lookupKey (resetCircuitBreaker
        [("sig", CircuitEntry.mk 3 40 CBState.CLOSED)] "sig") "sig" =
      some (CircuitEntry.mk 0 40 CBState.CLOSED) :=
  ⟨rfl,
   (C5_breaker_opens_at_fifth_failure [10, 20, 30, 40, 50] [] "sig" rfl).1 4
     (by decide) (by decide) (by decide),
   (C5_breaker_opens_at_fifth_failure [10, 20, 30, 40, 50] [] "sig" rfl).2.1
     (by decide),
   (C5_breaker_opens_at_fifth_failure [10, 20, 30, 40, 50] [] "sig" rfl).2.2
     [("sig", CircuitEntry.mk 3 40 CBState.CLOSED)]
     (CircuitEntry.mk 3 40 CBState.CLOSED) (by decide)⟩

/-! ### The exit shape of the retry loop -/

/-- If every attempt fails, the loop exits at the first attempt index `j`
whose error is not retryable (the budget is exhausted or the code is not in
the retryable set): the result is that error, the breaker table receives
exactly one `recordFailure`, and the operation ran `j + 1` times. -/
theorem retryLoop_exit {T : Type} (cfg : RetryManagerConfig) (now : Int)
    (strategy : RetryStrategy) (key : String) (errAt : Nat → ErrorCode)
    (executor : Nat → Except ErrorCode T)
    (herr : ∀ n, executor n = .error (errAt n)) (cb : CBMap) :
    ∀ (d retryCount j : Nat), j - retryCount = d → retryCount ≤ j →
      (∀ n, retryCount ≤ n → n < j → shouldRetry (errAt n) n strategy = true) →
      shouldRetry (errAt j) j strategy = false →
      retryLoop cfg now strategy key executor cb retryCount =
        { result := .error (.opFailed (errAt j)),
          cb := recordFailure cfg now cb key, attempts := j + 1 } := by
  intro d
  induction d with
  | zero =>
    intro retryCount j hd hle hall hstop
    have hj : retryCount = j := by omega
    subst hj
    rw [retryLoop, herr retryCount]
    simp [hstop]
  | succ d ih =>
    intro retryCount j hd hle hall hstop
    have hlt : retryCount < j := by omega
    have hr : shouldRetry (errAt retryCount) retryCount strategy = true :=
      hall retryCount le_rfl hlt
    rw [retryLoop, herr retryCount]
    simp only [hr, dite_true]
    exact ih (retryCount + 1) j (by omega) (by omega)
      (fun n h1 h2 => hall n (by omega) h2) hstop

/-- `recordFailure` increments the stored failure count for its key by
exactly one (an absent entry counts as zero). -/
theorem recordFailure_failures (cfg : RetryManagerConfig) (now : Int)
    (cb : CBMap) (key : String) :
    (lookupKey (recordFailure cfg now cb key) key).map CircuitEntry.failures =
      some (((lookupKey cb key).map CircuitEntry.failures).getD 0 + 1) := by
  simp only [recordFailure]
  rw [lookupKey_setKey_self]
  cases lookupKey cb key <;> split <;> simp

/-! ### Claim C6 — one breaker increment per exhausted invocation -/

/-- Claim C6: for a single `executeWithRetry` invocation whose attempts all
fail (and whose breaker is not open at entry), there is an exit attempt
index `j` such that the final breaker table is exactly ONE `recordFailure`
applied to the table as it stood after the entry check — so the stored
failure count for the signature grows by exactly one — while the operation
ran `j + 1` times; and if every pre-budget error is retryable, `j` is the
full budget `maxRetries`, i.e. many attempts still yield one increment. -/
theorem C6_one_increment_per_invocation {T : Type} (cfg : RetryManagerConfig)
    (now : Int) (command paramsJson : String) (errAt : Nat → ErrorCode)
    (executor : Nat → Except ErrorCode T)
    (herr : ∀ n, executor n = .error (errAt n)) (cb : CBMap)
    (hnotopen : (isCircuitBreakerOpen cfg now cb
      (circuitBreakerKey command paramsJson)).1 = false) :
    ∃ j,
      (executeWithRetry cfg now command paramsJson executor cb).cb =
        recordFailure cfg now
          (isCircuitBreakerOpen cfg now cb
            (circuitBreakerKey command paramsJson)).2
          (circuitBreakerKey command paramsJson) ∧
      (executeWithRetry cfg now command paramsJson executor cb).result =
        .error (.opFailed (errAt j)) ∧
      (executeWithRetry cfg now command paramsJson executor cb).attempts =
        j + 1 ∧
      (lookupKey (executeWithRetry cfg now command paramsJson executor cb).cb
          (circuitBreakerKey command paramsJson)).map CircuitEntry.failures =
        some (((lookupKey (isCircuitBreakerOpen cfg now cb
              (circuitBreakerKey command paramsJson)).2
            (circuitBreakerKey command paramsJson)).map
            CircuitEntry.failures).getD 0 + 1) ∧
      ((∀ n, n < (getRetryStrategy cfg.errorConfig command).maxRetries →
          (getRetryStrategy cfg.errorConfig command).retryableErrors.contains
            (errAt n) = true) →
        j = (getRetryStrategy cfg.errorConfig command).maxRetries) := by
  have hP : ∃ n, shouldRetry (errAt n) n
      (getRetryStrategy cfg.errorConfig command) = false :=
    ⟨(getRetryStrategy cfg.errorConfig command).maxRetries, by
      simp [shouldRetry]⟩
  refine ⟨Nat.find hP, ?_⟩
  have hstop := Nat.find_spec hP
  have hall : ∀ n, 0 ≤ n → n < Nat.find hP →
      shouldRetry (errAt n) n (getRetryStrategy cfg.errorConfig command) =
        true := by
    intro n _ hn
    have := Nat.find_min hP hn
    simpa using this
  have hrun : executeWithRetry cfg now command paramsJson executor cb =
      { result := .error (.opFailed (errAt (Nat.find hP))),
        cb := recordFailure cfg now
          (isCircuitBreakerOpen cfg now cb
            (circuitBreakerKey command paramsJson)).2
          (circuitBreakerKey command paramsJson),
        attempts := Nat.find hP + 1 } := by
    rw [executeWithRetry]
    simp only [hnotopen, Bool.false_eq_true, if_false]
    exact retryLoop_exit cfg now _ _ errAt executor herr _ _ 0 (Nat.find hP)
      rfl (Nat.zero_le _) hall hstop
  refine ⟨by rw [hrun], by rw [hrun], by rw [hrun], ?_, ?_⟩
  · rw [hrun]
    exact recordFailure_failures ..
  · intro hret
    apply le_antisymm
    · exact Nat.find_le (by simp [shouldRetry])
    · by_contra hlt
      push_neg at hlt
      have hs := Nat.find_spec hP
      simp only [shouldRetry, if_neg (Nat.not_le.mpr hlt)] at hs
      rw [hret (Nat.find hP) hlt] at hs
      exact Bool.true_eq_false.mp hs

/-- Witness for C6 under the live configuration: every attempt fails with a
retryable NETWORK error, so four attempts are made (budget 3) yet the table
goes from empty to a single entry with failure count exactly 1. -/
theorem C6_witness :
    ∃ j,
      (executeWithRetry (T := Unit) createRetryManagerConfig 0 "click" "p"
          (fun _ => .error .NETWORK_ERROR) []).cb =
        recordFailure createRetryManagerConfig 0
          (isCircuitBreakerOpen createRetryManagerConfig 0 []
            (circuitBreakerKey "click" "p")).2
          (circuitBreakerKey "click" "p") ∧
      (executeWithRetry (T := Unit) createRetryManagerConfig 0 "click" "p"
          (fun _ => .error .NETWORK_ERROR) []).result =
        .error (.opFailed .NETWORK_ERROR) ∧
      (executeWithRetry (T := Unit) createRetryManagerConfig 0 "click" "p"
          (fun _ => .error .NETWORK_ERROR) []).attempts = j + 1 ∧
      (lookupKey (executeWithRetry (T := Unit) createRetryManagerConfig 0
            "click" "p" (fun _ => .error .NETWORK_ERROR) []).cb
          (circuitBreakerKey "click" "p")).map CircuitEntry.failures =
        some (((lookupKey (isCircuitBreakerOpen createRetryManagerConfig 0 []
              (circuitBreakerKey "click" "p")).2
            (circuitBreakerKey "click" "p")).map
            CircuitEntry.failures).getD 0 + 1) ∧
      ((∀ n, n < (getRetryStrategy
            createRetryManagerConfig.errorConfig "click").maxRetries →
          (getRetryStrategy
            createRetryManagerConfig.errorConfig "click").retryableErrors.contains
            .NETWORK_ERROR = true) →
        j = (getRetryStrategy
          createRetryManagerConfig.errorConfig "click").maxRetries) :=
  C6_one_increment_per_invocation createRetryManagerConfig 0 "click" "p"
    (fun _ => .NETWORK_ERROR) (fun _ => .error .NETWORK_ERROR)
    (fun _ => rfl) [] rfl

/-! ### Claim C9 — category-based retry policy -/

/-- The default strategy's retryable set is exactly the NETWORK, SELECTOR
and TIMEOUT categories (checked over the whole error-code enumeration). -/
theorem default_retryable_iff_category :
    ∀ code : ErrorCode,
      defaultRetryStrategy.retryableErrors.contains code =
        (decide (categorizeError code = .NETWORK) ||
         decide (categorizeError code = .SELECTOR) ||
         decide (categorizeError code = .TIMEOUT)) := by decide

/-- Claim C9: under the retry manager built by `createRetryManager` (the one
the live server uses), for every command kind the governing strategy is the
default one; an error of category VALIDATION or PERMISSION is never
retryable at any retry count, and an all-failing run with such an error
makes exactly one attempt and raises it; an error of category NETWORK,
SELECTOR or TIMEOUT is retryable at every retry count below the budget, and
an all-failing run with such an error makes `maxRetries + 1` attempts. -/
theorem C9_propagation_policy {T : Type} (now : Int)
    (command paramsJson : String) (cb : CBMap) (code code2 : ErrorCode)
    (hcat : categorizeError code = .VALIDATION ∨
      categorizeError code = .PERMISSION)
    (hcat2 : categorizeError code2 = .NETWORK ∨
      categorizeError code2 = .SELECTOR ∨ categorizeError code2 = .TIMEOUT)
    (executorV executorR : Nat → Except ErrorCode T)
    (hV : ∀ n, executorV n = .error code) (hR : ∀ n, executorR n = .error code2)
    (hnotopen : (isCircuitBreakerOpen createRetryManagerConfig now cb
      (circuitBreakerKey command paramsJson)).1 = false) :
    getRetryStrategy createRetryManagerConfig.errorConfig command =
      defaultRetryStrategy ∧
    (∀ retryCount, shouldRetry code retryCount defaultRetryStrategy = false) ∧
    (executeWithRetry createRetryManagerConfig now command paramsJson
      executorV cb).attempts = 1 ∧
    (executeWithRetry createRetryManagerConfig now command paramsJson
      executorV cb).result = .error (.opFailed code) ∧
    (∀ retryCount, retryCount < defaultRetryStrategy.maxRetries →
      shouldRetry code2 retryCount defaultRetryStrategy = true) ∧
    (executeWithRetry createRetryManagerConfig now command paramsJson
      executorR cb).attempts = defaultRetryStrategy.maxRetries + 1 := by
  have hcontains : defaultRetryStrategy.retryableErrors.contains code = false := by
    rw [default_retryable_iff_category]
    rcases hcat with h | h <;> simp [h]
  have hcontains2 : defaultRetryStrategy.retryableErrors.contains code2 = true := by
    rw [default_retryable_iff_category]
    rcases hcat2 with h | h | h <;> simp [h]
  have h1 : ∀ n, shouldRetry code n defaultRetryStrategy = false := by
    intro n
    simp only [shouldRetry]
    split
    · rfl
    · exact hcontains
  have h2 : ∀ n, n < defaultRetryStrategy.maxRetries →
      shouldRetry code2 n defaultRetryStrategy = true := by
    intro n hn
    simp only [shouldRetry, if_neg (Nat.not_le.mpr hn)]
    exact hcontains2
  have hrunV : executeWithRetry createRetryManagerConfig now command paramsJson
      executorV cb =
      { result := .error (.opFailed code),
        cb := recordFailure createRetryManagerConfig now
          (isCircuitBreakerOpen createRetryManagerConfig now cb
            (circuitBreakerKey command paramsJson)).2
          (circuitBreakerKey command paramsJson),
        attempts := 0 + 1 } := by
    rw [executeWithRetry]
    simp only [hnotopen, Bool.false_eq_true, if_false]
    exact retryLoop_exit createRetryManagerConfig now _ _ (fun _ => code)
      executorV hV _ 0 0 0 rfl le_rfl (fun n h1 h2 => absurd h2 (by omega))
      (h1 0)
  have hrunR : executeWithRetry createRetryManagerConfig now command paramsJson
      executorR cb =
      { result := .error (.opFailed code2),
        cb := recordFailure createRetryManagerConfig now
          (isCircuitBreakerOpen createRetryManagerConfig now cb
            (circuitBreakerKey command paramsJson)).2
          (circuitBreakerKey command paramsJson),
        attempts := defaultRetryStrategy.maxRetries + 1 } := by
    rw [executeWithRetry]
    simp only [hnotopen, Bool.false_eq_true, if_false]
    exact retryLoop_exit createRetryManagerConfig now _ _ (fun _ => code2)
      executorR hR _ _ 0 defaultRetryStrategy.maxRetries rfl (Nat.zero_le _)
      (fun n _ hn => h2 n hn)
      (by show shouldRetry code2 defaultRetryStrategy.maxRetries
            defaultRetryStrategy = false
          simp [shouldRetry])
  exact ⟨rfl, h1, by rw [hrunV], by rw [hrunV], h2, by rw [hrunR]⟩

/-- Witness for C9: a VALIDATION error (INVALID_PARAMS) and a NETWORK error
(NETWORK_ERROR) against the `click` command with a fresh breaker table. -/
theorem C9_witness :
    getRetryStrategy createRetryManagerConfig.errorConfig "click" =
      defaultRetryStrategy ∧
    (∀ retryCount, shouldRetry .INVALID_PARAMS retryCount
      defaultRetryStrategy = false) ∧
    (executeWithRetry (T := Unit) createRetryManagerConfig 0 "click" "p"
      (fun _ => .error .INVALID_PARAMS) []).attempts = 1 ∧
    (executeWithRetry (T := Unit) createRetryManagerConfig 0 "click" "p"
      (fun _ => .error .INVALID_PARAMS) []).result =
      .error (.opFailed .INVALID_PARAMS) ∧
    (∀ retryCount, retryCount < defaultRetryStrategy.maxRetries →
      shouldRetry .NETWORK_ERROR retryCount defaultRetryStrategy = true) ∧
    (executeWithRetry (T := Unit) createRetryManagerConfig 0 "click" "p"
      (fun _ => .error .NETWORK_ERROR) []).attempts =
      defaultRetryStrategy.maxRetries + 1 :=
  C9_propagation_policy 0 "click" "p" [] .INVALID_PARAMS .NETWORK_ERROR
    (Or.inl rfl) (Or.inl rfl) (fun _ => .error .INVALID_PARAMS)
    (fun _ => .error .NETWORK_ERROR) (fun _ => rfl) (fun _ => rfl) rfl

/-! ### Claim C7 — backoff delay and jitter -/

/-- Claim C7: for every policy and 0-based attempt index the returned delay
is the floor of `min(baseDelay * multiplier^attemptIndex, maxDelay)` plus a
jitter term that is nonnegative and at most 10% of that value; for the
default policy (maxRetries 3, base 1000, multiplier 2, max 10000) the
pre-jitter delays at indices 0, 1, 2 are 1000, 2000, 4000; and for that
policy no jitter value in `[0,1)` can make the returned delay drop below
the pre-jitter value. -/
theorem C7_backoff_delay_formula (rand : Rat) (h0 : 0 ≤ rand)
    (h1 : rand < 1) :
    preJitterDelay defaultRetryStrategy 0 = 1000 ∧
    preJitterDelay defaultRetryStrategy 1 = 2000 ∧
    preJitterDelay defaultRetryStrategy 2 = 4000 ∧
    (∀ (strategy : RetryStrategy) (retryCount : Nat),
      0 ≤ preJitterDelay strategy retryCount →
      0 ≤ rand * (1 / 10) * preJitterDelay strategy retryCount ∧
      rand * (1 / 10) * preJitterDelay strategy retryCount ≤
        preJitterDelay strategy retryCount / 10 ∧
      calculateRetryDelay strategy retryCount rand =
        ⌊preJitterDelay strategy retryCount +
          rand * (1 / 10) * preJitterDelay strategy retryCount⌋) ∧
    (∀ retryCount, preJitterDelay defaultRetryStrategy retryCount ≤
      ((calculateRetryDelay defaultRetryStrategy retryCount rand : Int) :
        Rat)) := by
  refine ⟨?_, ?_, ?_, ?_, ?_⟩
  · norm_num [preJitterDelay, defaultRetryStrategy]
  · norm_num [preJitterDelay, defaultRetryStrategy]
  · norm_num [preJitterDelay, defaultRetryStrategy]
  · intro strategy n hpos
    refine ⟨mul_nonneg (mul_nonneg h0 (by norm_num)) hpos, ?_, rfl⟩
    calc rand * (1 / 10) * preJitterDelay strategy n
        = rand * ((1 / 10) * preJitterDelay strategy n) := by ring
      _ ≤ 1 * ((1 / 10) * preJitterDelay strategy n) := by
          apply mul_le_mul_of_nonneg_right (le_of_lt h1)
          have : (0 : Rat) ≤ 1 / 10 := by norm_num
          exact mul_nonneg this hpos
      _ = preJitterDelay strategy n / 10 := by ring
  · intro n
    have hd : preJitterDelay defaultRetryStrategy n =
        ((min (1000 * 2 ^ n) 10000 : Int) : Rat) := by
      rw [preJitterDelay]
      push_cast
      norm_num [defaultRetryStrategy]
    have hm0 : (0 : Int) ≤ min (1000 * 2 ^ n) 10000 :=
      le_min (by positivity) (by norm_num)
    have hd0 : (0 : Rat) ≤ preJitterDelay defaultRetryStrategy n := by
      rw [hd]
      exact_mod_cast hm0
    have hjit : 0 ≤ rand * (1 / 10) * preJitterDelay defaultRetryStrategy n :=
      mul_nonneg (mul_nonneg h0 (by norm_num)) hd0
    have hfloor : (min (1000 * 2 ^ n) 10000 : Int) ≤
        calculateRetryDelay defaultRetryStrategy n rand := by
      simp only [calculateRetryDelay]
      apply Int.le_floor.mpr
      rw [← hd]
      linarith
    calc preJitterDelay defaultRetryStrategy n
        = ((min (1000 * 2 ^ n) 10000 : Int) : Rat) := hd
      _ ≤ ((calculateRetryDelay defaultRetryStrategy n rand : Int) : Rat) := by
          exact_mod_cast hfloor

/-- Witness for C7 at jitter value 1/2 and attempt index 2: the pre-jitter
delay is 4000, the returned delay is 4200 (so not below 4000). -/
theorem C7_witness :
    (0 : Rat) ≤ 1 / 2 ∧ (1 / 2 : Rat) < 1 ∧
    preJitterDelay defaultRetryStrategy 2 = 4000 ∧
    calculateRetryDelay defaultRetryStrategy 2 (1 / 2) = 4200 ∧
    preJitterDelay defaultRetryStrategy 2 ≤
      ((calculateRetryDelay defaultRetryStrategy 2 (1 / 2) : Int) : Rat) :=
  ⟨by norm_num, by norm_num,
   (C7_backoff_delay_formula (1 / 2) (by norm_num) (by norm_num)).2.2.1,
   by norm_num [calculateRetryDelay, preJitterDelay, defaultRetryStrategy],
   (C7_backoff_delay_formula (1 / 2) (by norm_num) (by norm_num)).2.2.2.2 2⟩

/-! ### Claim C8 — rate-limit window behaviour -/

/-- Run `checkRateLimit` once per timestamp in order, collecting the
boolean verdicts. -/
def checkRateLimitMany (clientId : String) :
    List Int → ServerState → List Bool × ServerState
  | [], st => ([], st)
  | t :: ts, st =>
    let r := checkRateLimit t clientId st
    let rest := checkRateLimitMany clientId ts r.2
    (r.1 :: rest.1, rest.2)

/-- A client object with its request counter set to `k` and everything else
unchanged. -/
def withRequests (client : ClientState) (k : Nat) : ClientState :=
  { client with rateLimit := { client.rateLimit with requests := k } }

/-- A server state with one client entry overwritten. -/
def setClient (st : ServerState) (clientId : String) (c : ClientState) :
    ServerState :=
  { st with clients := setKey st.clients clientId c }

/-- A client object with a fresh window at `now` holding one consumed
request (the state after a reset followed by the allowed check). -/
def withFreshWindow (client : ClientState) (now : Int) : ClientState :=
  { client with rateLimit := { requests := 1, windowStart := now } }

/-- One in-window, under-limit check: allowed, and only the request counter
of the target client changes (incremented by one). -/
theorem checkRateLimit_step (t : Int) (clientId : String) (st : ServerState)
    (client : ClientState) (k : Nat)
    (hlook : lookupKey st.clients clientId = some client)
    (hreq : client.rateLimit.requests = k)
    (hin : t - client.rateLimit.windowStart ≤ 60000) (hk : k < 100) :
    checkRateLimit t clientId st =
      (true, setClient st clientId (withRequests client (k + 1))) := by
  simp only [checkRateLimit, hlook, if_neg (not_lt.mpr hin), hreq,
    if_neg (not_le.mpr hk), withRequests, setClient]

/-- Consecutive in-window checks starting from counter `k` with at most
`100 - k` of them: all are allowed and the counter ends at
`k + times.length`, with the window start untouched. -/
theorem checkRateLimitMany_allowed (clientId : String) (w : Int)
    (times : List Int) :
    ∀ (st : ServerState) (client : ClientState) (k : Nat),
      lookupKey st.clients clientId = some client →
      client.rateLimit.requests = k →
      client.rateLimit.windowStart = w →
      k + times.length ≤ 100 →
      (∀ t ∈ times, t - w ≤ 60000) →
      (checkRateLimitMany clientId times st).1 =
        List.replicate times.length true ∧
      ∃ client2,
        lookupKey (checkRateLimitMany clientId times st).2.clients clientId =
          some client2 ∧
        client2.rateLimit.requests = k + times.length ∧
        client2.rateLimit.windowStart = w := by
  induction times with
  | nil =>
    intro st client k hlook hreq hwin _ _
    exact ⟨rfl, client, hlook, by simpa using hreq, hwin⟩
  | cons t ts ih =>
    intro st client k hlook hreq hwin hbound hinwin
    have hk : k < 100 := by
      have := hbound
      simp only [List.length_cons] at this
      omega
    have hstep := checkRateLimit_step t clientId st client k hlook hreq
      (by rw [hwin]; exact hinwin t (List.mem_cons_self ..)) hk
    have hlook2 : lookupKey
        (setClient st clientId (withRequests client (k + 1))).clients
          clientId = some (withRequests client (k + 1)) :=
      lookupKey_setKey_self ..
    have hih := ih _ _ (k + 1) hlook2 rfl hwin
      (by simp only [List.length_cons] at hbound; omega)
      (fun t2 ht2 => hinwin t2 (List.mem_cons_of_mem _ ht2))
    obtain ⟨hres, client2, hl2, hr2, hw2⟩ := hih
    constructor
    · simp only [checkRateLimitMany, hstep, hres, List.length_cons,
        List.replicate_succ]
    · refine ⟨client2, ?_, ?_, hw2⟩
      · simpa only [checkRateLimitMany, hstep] using hl2
      · rw [hr2]
        simp only [List.length_cons]
        omega

/-- An in-window check against a full counter is denied and the state is
returned exactly as it was. -/
theorem checkRateLimit_denied_no_mutation (nowD : Int) (clientId : String)
    (stD : ServerState) (clientD : ClientState)
    (hlook : lookupKey stD.clients clientId = some clientD)
    (hin : nowD - clientD.rateLimit.windowStart ≤ 60000)
    (hfull : 100 ≤ clientD.rateLimit.requests) :
    checkRateLimit nowD clientId stD = (false, stD) := by
  simp only [checkRateLimit, hlook, if_neg (not_lt.mpr hin), if_pos hfull,
    setKey_self hlook]

/-- Claim C8: with the hard-coded limits (100 requests per 60000 ms), for a
client whose window starts at `w` with a zero counter: 100 checks inside the
unexpired window are all allowed and leave the counter at exactly 100; a
101st in-window check is denied and returns the state unchanged; any denial
against an unexpired window mutates nothing; and a check whose elapsed time
exceeds the window resets the counter (to 1 after the allowed request) and
restarts the window at the check time. -/
theorem C8_rate_limit_window (clientId : String) (st : ServerState)
    (client : ClientState) (w : Int) (times : List Int) (t101 : Int)
    (stD : ServerState) (clientD : ClientState) (nowD : Int)
    (stR : ServerState) (clientR : ClientState) (nowR : Int)
    (hlook : lookupKey st.clients clientId = some client)
    (hreq : client.rateLimit.requests = 0)
    (hwin : client.rateLimit.windowStart = w)
    (hlen : times.length = 100)
    (hinwin : ∀ t ∈ times, t - w ≤ 60000)
    (hin101 : t101 - w ≤ 60000)
    (hlookD : lookupKey stD.clients clientId = some clientD)
    (hD1 : nowD - clientD.rateLimit.windowStart ≤ 60000)
    (hD2 : 100 ≤ clientD.rateLimit.requests)
    (hlookR : lookupKey stR.clients clientId = some clientR)
    (hR1 : 60000 < nowR - clientR.rateLimit.windowStart) :
    (checkRateLimitMany clientId times st).1 = List.replicate 100 true ∧
    (∃ client2,
      lookupKey (checkRateLimitMany clientId times st).2.clients clientId =
        some client2 ∧
      client2.rateLimit.requests = 100 ∧
      client2.rateLimit.windowStart = w) ∧
    checkRateLimit t101 clientId (checkRateLimitMany clientId times st).2 =
      (false, (checkRateLimitMany clientId times st).2) ∧
    checkRateLimit nowD clientId stD = (false, stD) ∧
    checkRateLimit nowR clientId stR =
      (true, setClient stR clientId (withFreshWindow clientR nowR)) := by
  obtain ⟨hres, client2, hl2, hr2, hw2⟩ :=
    checkRateLimitMany_allowed clientId w times st client 0 hlook hreq hwin
      (by omega) hinwin
  refine ⟨by rw [hres, hlen], ⟨client2, hl2, by rw [hr2, hlen], hw2⟩, ?_, ?_, ?_⟩
  · exact checkRateLimit_denied_no_mutation t101 clientId _ client2 hl2
      (by rw [hw2]; exact hin101) (by rw [hr2, hlen])
  · exact checkRateLimit_denied_no_mutation nowD clientId stD clientD hlookD
      hD1 hD2
  · simp only [checkRateLimit, hlookR, if_pos hR1, withFreshWindow, setClient]
    norm_num

/-- Witness for C8: one registered client, 100 checks at time 0 in a window
starting at 0, a 101st at time 0, a denial state with a full counter, and a
reset at time 70000. -/
theorem C8_witness :
    (checkRateLimitMany "c" (List.replicate 100 (0 : Int))
      (ServerState.mk
        [("c", ClientState.mk true 0 0 0 (RateLimitState.mk 0 0))]
        [] [] [])).1 = List.replicate 100 true ∧
    (∃ client2,
      lookupKey (checkRateLimitMany "c" (List.replicate 100 (0 : Int))
        (ServerState.mk
          [("c", ClientState.mk true 0 0 0 (RateLimitState.mk 0 0))]
          [] [] [])).2.clients "c" = some client2 ∧
      client2.rateLimit.requests = 100 ∧
      client2.rateLimit.windowStart = 0) ∧
    checkRateLimit 0 "c" (checkRateLimitMany "c"
      (List.replicate 100 (0 : Int))
      (ServerState.mk
        [("c", ClientState.mk true 0 0 0 (RateLimitState.mk 0 0))]
        [] [] [])).2 =
      (false, (checkRateLimitMany "c" (List.replicate 100 (0 : Int))
        (ServerState.mk
          [("c", ClientState.mk true 0 0 0 (RateLimitState.mk 0 0))]
          [] [] [])).2) ∧
    checkRateLimit 0 "c"
      (ServerState.mk
        [("c", ClientState.mk true 0 0 0 (RateLimitState.mk 100 0))]
        [] [] []) =
      (false, ServerState.mk
        [("c", ClientState.mk true 0 0 0 (RateLimitState.mk 100 0))]
        [] [] []) ∧
    checkRateLimit 70000 "c"
      (ServerState.mk
        [("c", ClientState.mk true 0 0 0 (RateLimitState.mk 100 0))]
        [] [] []) =
      (true, ServerState.mk
        [("c", ClientState.mk true 0 0 0 (RateLimitState.mk 1 70000))]
        [] [] []) := by
  have h := C8_rate_limit_window "c"
    (ServerState.mk
      [("c", ClientState.mk true 0 0 0 (RateLimitState.mk 0 0))] [] [] [])
    (ClientState.mk true 0 0 0 (RateLimitState.mk 0 0)) 0
    (List.replicate 100 (0 : Int)) 0
    (ServerState.mk
      [("c", ClientState.mk true 0 0 0 (RateLimitState.mk 100 0))] [] [] [])
    (ClientState.mk true 0 0 0 (RateLimitState.mk 100 0)) 0
    (ServerState.mk
      [("c", ClientState.mk true 0 0 0 (RateLimitState.mk 100 0))] [] [] [])
    (ClientState.mk true 0 0 0 (RateLimitState.mk 100 0)) 70000
    rfl rfl rfl (by simp) (by decide) (by decide) rfl (by decide) (by decide)
    rfl (by decide)
  exact ⟨h.1, h.2.1, h.2.2.1, h.2.2.2.1,
    by simpa [setKey, withFreshWindow, setClient] using h.2.2.2.2⟩

/-! ### Claim C1 — exactly-once settlement per correlation id -/

/-- A reply whose correlation id has no pending entry changes neither the
pending map nor the timer set and settles nothing. -/
theorem handleResponse_noop (now : Int) (clientId id : String)
    (success : Bool) (st : ServerState)
    (h : st.pendings.contains id = false) :
    (handleResponse now clientId id success st).1.pendings = st.pendings ∧
    (handleResponse now clientId id success st).1.timers = st.timers ∧
    (handleResponse now clientId id success st).2 = [] := by
  simp only [handleResponse]
  rw [if_neg (by simpa using h)]
  exact ⟨rfl, rfl, rfl⟩

/-- A timeout whose timer is no longer armed changes nothing and settles
nothing. -/
theorem firePendingTimeout_noop (id : String) (st : ServerState)
    (h : st.timers.contains id = false) :
    firePendingTimeout id st = (st, []) := by
  simp only [firePendingTimeout]
  rw [if_neg (by simpa using h)]

/-- The rate-limit check never touches the pending map or the timers. -/
theorem checkRateLimit_pendings (now : Int) (c : String) (st : ServerState) :
    (checkRateLimit now c st).2.pendings = st.pendings ∧
    (checkRateLimit now c st).2.timers = st.timers := by
  cases h : lookupKey st.clients c with
  | none => simp [checkRateLimit, h]
  | some client =>
    refine ⟨?_, ?_⟩ <;>
      · simp only [checkRateLimit, h]
        split <;> split <;> rfl

/-- Handling an inbound command frame never touches the pending map or the
timers. -/
theorem handleCommand_pendings (now : Int) (c g : String)
    (msg : InboundCommandMsg) (st : ServerState) :
    (handleCommand now c g msg st).1.pendings = st.pendings ∧
    (handleCommand now c g msg st).1.timers = st.timers := by
  have hc := checkRateLimit_pendings now c st
  simp only [handleCommand]
  split
  · exact ⟨rfl, rfl⟩
  · split
    · exact ⟨hc.1, hc.2⟩
    · exact ⟨hc.1, hc.2⟩

/-- Absence of a correlation id from the pending map and timer set is
preserved by every event that does not register that id. -/
theorem serverStep_preserves_absent (e : ServerEvent) (st : ServerState)
    (id : String) (habs : idAbsent st id) (hreg : ¬ registersId e id) :
    idAbsent (serverStep e st).1 id := by
  obtain ⟨hp, ht⟩ := habs
  cases e with
  | auth now c => exact ⟨hp, ht⟩
  | heartbeat now c => exact ⟨hp, ht⟩
  | command now c g msg =>
    have h := handleCommand_pendings now c g msg st
    exact ⟨h.1 ▸ hp, h.2 ▸ ht⟩
  | registerPendingEv id2 =>
    have hne : id2 ≠ id := fun he => hreg (by rw [registersId, he])
    exact ⟨contains_cons_ne hne hp, contains_cons_ne hne ht⟩
  | response now c id2 succ =>
    simp only [serverStep, handleResponse]
    split
    · exact ⟨contains_removeId_of_not hp, contains_removeId_of_not ht⟩
    · exact ⟨hp, ht⟩
  | pendingTimeout id2 =>
    simp only [serverStep, firePendingTimeout]
    split
    · exact ⟨contains_removeId_of_not hp, contains_removeId_of_not ht⟩
    · exact ⟨hp, ht⟩
  | disconnect c => exact ⟨hp, ht⟩
  | sweep now => exact ⟨hp, ht⟩

/-- Absence is preserved along any event sequence that never re-registers
the id. -/
theorem serverRun_preserves_absent (evs : List ServerEvent)
    (st : ServerState) (id : String) (habs : idAbsent st id)
    (hreg : ∀ e ∈ evs, ¬ registersId e id) :
    idAbsent (serverRun evs st).1 id := by
  induction evs generalizing st with
  | nil => exact habs
  | cons e rest ih =>
    exact ih (serverStep e st).1
      (serverStep_preserves_absent e st id habs
        (hreg e (List.mem_cons_self ..)))
      (fun e2 h2 => hreg e2 (List.mem_cons_of_mem _ h2))

/-- A settlement event that actually settles something (emits a
resolution) removes the pending entry and disarms the timer, provided the
id was registered at most once. -/
theorem resolution_removes (e : ServerEvent) (st : ServerState) (id : String)
    (h1 : isResolutionEventFor e id)
    (hcnt : st.pendings.count id ≤ 1) (hcnt2 : st.timers.count id ≤ 1)
    (hfired : (serverStep e st).2 ≠ []) : idAbsent (serverStep e st).1 id := by
  rcases h1 with ⟨now, clientId, success, rfl⟩ | rfl
  · by_cases hc : st.pendings.contains id = true
    · simp only [serverStep, handleResponse]
      rw [if_pos (by simpa using hc)]
      exact ⟨contains_removeId_self hcnt, contains_removeId_self hcnt2⟩
    · refine absurd ?_ hfired
      simp only [serverStep, handleResponse]
      rw [if_neg (by simpa using hc)]
  · by_cases hc : st.timers.contains id = true
    · simp only [serverStep, firePendingTimeout]
      rw [if_pos (by simpa using hc)]
      exact ⟨contains_removeId_self hcnt, contains_removeId_self hcnt2⟩
    · refine absurd ?_ hfired
      simp only [serverStep, firePendingTimeout]
      rw [if_neg (by simpa using hc)]

/-- Claim C1: for a correlation id with at most one pending entry and one
armed timer, at most one of resolve-by-reply and reject-by-timeout takes
effect.  The first settlement event that takes effect removes the entry and
disarms the timer; after any further events that do not re-register the id,
a second reply or timeout firing for the same id settles nothing, throws
nothing (the handlers are total) and leaves the pending map and timer set
exactly unchanged. -/
theorem C1_exactly_once_resolution (st : ServerState) (id : String)
    (e1 : ServerEvent) (evs : List ServerEvent) (e2 : ServerEvent)
    (h1 : isResolutionEventFor e1 id)
    (hcnt : st.pendings.count id ≤ 1) (hcnt2 : st.timers.count id ≤ 1)
    (hfired : (serverStep e1 st).2 ≠ [])
    (hreg : ∀ e ∈ evs, ¬ registersId e id)
    (h2 : isResolutionEventFor e2 id) :
    idAbsent (serverStep e1 st).1 id ∧
    (serverStep e2 (serverRun evs (serverStep e1 st).1).1).1.pendings =
      (serverRun evs (serverStep e1 st).1).1.pendings ∧
    (serverStep e2 (serverRun evs (serverStep e1 st).1).1).1.timers =
      (serverRun evs (serverStep e1 st).1).1.timers ∧
    (serverStep e2 (serverRun evs (serverStep e1 st).1).1).2 = [] := by
  have habs1 := resolution_removes e1 st id h1 hcnt hcnt2 hfired
  have habs2 := serverRun_preserves_absent evs _ id habs1 hreg
  refine ⟨habs1, ?_⟩
  rcases h2 with ⟨now, clientId, success, rfl⟩ | rfl
  · exact handleResponse_noop now clientId id success _ habs2.1
  · have h := firePendingTimeout_noop id
      ((serverRun evs (serverStep e1 st).1).1) habs2.2
    refine ⟨?_, ?_, ?_⟩
    · show (firePendingTimeout id _).1.pendings = _
      rw [h]
    · show (firePendingTimeout id _).1.timers = _
      rw [h]
    · show (firePendingTimeout id _).2 = _
      rw [h]

/-- Witness for C1: a single pending command `cmd1` with its timer armed; a
successful reply settles it, after which its own timeout firing is a
perfect no-op. -/
theorem C1_witness :
    (serverStep (.response 0 "c" "cmd1" true)
      (ServerState.mk [] ["cmd1"] ["cmd1"] [])).2 ≠ [] ∧
    idAbsent (serverStep (.response 0 "c" "cmd1" true)
      (ServerState.mk [] ["cmd1"] ["cmd1"] [])).1 "cmd1" ∧
    (serverStep (.pendingTimeout "cmd1")
      (serverRun [] (serverStep (.response 0 "c" "cmd1" true)
        (ServerState.mk [] ["cmd1"] ["cmd1"] [])).1).1).1.pendings =
      (serverRun [] (serverStep (.response 0 "c" "cmd1" true)
        (ServerState.mk [] ["cmd1"] ["cmd1"] [])).1).1.pendings ∧
    (serverStep (.pendingTimeout "cmd1")
      (serverRun [] (serverStep (.response 0 "c" "cmd1" true)
        (ServerState.mk [] ["cmd1"] ["cmd1"] [])).1).1).2 = [] := by
  have h := C1_exactly_once_resolution
    (ServerState.mk [] ["cmd1"] ["cmd1"] []) "cmd1"
    (.response 0 "c" "cmd1" true) [] (.pendingTimeout "cmd1")
    (Or.inl ⟨0, "c", true, rfl⟩) (by decide) (by decide) (by decide)
    (by simp) (Or.inr rfl)
  exact ⟨by decide, h.1, h.2.1, h.2.2.2⟩

/-! ### Claim C2 — what disconnection actually does to pending commands -/

/-- Counterexample to claim C2: a state with client `c1` (stale heartbeat at
time 0) and two pending commands.  Both the transport-close path
(`handleDisconnection`) and the heartbeat sweep (`cleanupStaleConnections`
at time 200000 > 120000) remove the client from the registry but leave both
entries in the pending map with their timers armed, and settle NOTHING — in
particular no command is rejected with a "target disconnected" error (the
`Resolution` type of observable settlements has no disconnect form because
no such code path exists in `server.ts`). -/
theorem C2_counterexample :
    (handleDisconnection "c1" (ServerState.mk
      [("c1", ClientState.mk true 0 0 0 (RateLimitState.mk 0 0))]
      ["cmd1", "cmd2"] ["cmd1", "cmd2"] [])).1.clients = [] ∧
    (handleDisconnection "c1" (ServerState.mk
      [("c1", ClientState.mk true 0 0 0 (RateLimitState.mk 0 0))]
      ["cmd1", "cmd2"] ["cmd1", "cmd2"] [])).1.pendings = ["cmd1", "cmd2"] ∧
    (handleDisconnection "c1" (ServerState.mk
      [("c1", ClientState.mk true 0 0 0 (RateLimitState.mk 0 0))]
      ["cmd1", "cmd2"] ["cmd1", "cmd2"] [])).1.timers = ["cmd1", "cmd2"] ∧
    (handleDisconnection "c1" (ServerState.mk
      [("c1", ClientState.mk true 0 0 0 (RateLimitState.mk 0 0))]
      ["cmd1", "cmd2"] ["cmd1", "cmd2"] [])).2 = [] ∧
    (cleanupStaleConnections 200000 (ServerState.mk
      [("c1", ClientState.mk true 0 0 0 (RateLimitState.mk 0 0))]
      ["cmd1", "cmd2"] ["cmd1", "cmd2"] [])).1.clients = [] ∧
    (cleanupStaleConnections 200000 (ServerState.mk
      [("c1", ClientState.mk true 0 0 0 (RateLimitState.mk 0 0))]
      ["cmd1", "cmd2"] ["cmd1", "cmd2"] [])).1.pendings = ["cmd1", "cmd2"] ∧
    (cleanupStaleConnections 200000 (ServerState.mk
      [("c1", ClientState.mk true 0 0 0 (RateLimitState.mk 0 0))]
      ["cmd1", "cmd2"] ["cmd1", "cmd2"] [])).2 = [] := by
  decide

/-- Claim C2 as amended: when a session disconnects (transport close or
heartbeat-sweep removal), only the client registry changes; pending
command entries and their timers are untouched and no settlement of any
kind is emitted, so each pending command remains until its reply arrives or
its own timeout fires — and the timeout settles it with a timeout error,
not a disconnect error. -/
theorem C2_disconnect_leaves_pendings (clientId : String) (now : Int)
    (st : ServerState) (id : String)
    (harm : st.timers.contains id = true) :
    (handleDisconnection clientId st).1.pendings = st.pendings ∧
    (handleDisconnection clientId st).1.timers = st.timers ∧
    (handleDisconnection clientId st).2 = [] ∧
    (cleanupStaleConnections now st).1.pendings = st.pendings ∧
    (cleanupStaleConnections now st).1.timers = st.timers ∧
    (cleanupStaleConnections now st).2 = [] ∧
    (firePendingTimeout id st).2 = [Resolution.rejectedTimeout id] := by
  refine ⟨rfl, rfl, rfl, rfl, rfl, rfl, ?_⟩
  simp only [firePendingTimeout]
  rw [if_pos (by simpa using harm)]

/-- Witness for the amended C2 at the counterexample state: the pending
command `cmd1` outlives the disconnect and its timeout fires with a timeout
error. -/
theorem C2_witness :
    (ServerState.mk
      [("c1", ClientState.mk true 0 0 0 (RateLimitState.mk 0 0))]
      ["cmd1", "cmd2"] ["cmd1", "cmd2"] []).timers.contains "cmd1" = true ∧
    ((handleDisconnection "c1" (ServerState.mk
        [("c1", ClientState.mk true 0 0 0 (RateLimitState.mk 0 0))]
        ["cmd1", "cmd2"] ["cmd1", "cmd2"] [])).1.pendings =
      ["cmd1", "cmd2"] ∧
     (handleDisconnection "c1" (ServerState.mk
        [("c1", ClientState.mk true 0 0 0 (RateLimitState.mk 0 0))]
        ["cmd1", "cmd2"] ["cmd1", "cmd2"] [])).1.timers =
      ["cmd1", "cmd2"] ∧
     (handleDisconnection "c1" (ServerState.mk
        [("c1", ClientState.mk true 0 0 0 (RateLimitState.mk 0 0))]
        ["cmd1", "cmd2"] ["cmd1", "cmd2"] [])).2 = [] ∧
     (cleanupStaleConnections 200000 (ServerState.mk
        [("c1", ClientState.mk true 0 0 0 (RateLimitState.mk 0 0))]
        ["cmd1", "cmd2"] ["cmd1", "cmd2"] [])).1.pendings =
      ["cmd1", "cmd2"] ∧
     (cleanupStaleConnections 200000 (ServerState.mk
        [("c1", ClientState.mk true 0 0 0 (RateLimitState.mk 0 0))]
        ["cmd1", "cmd2"] ["cmd1", "cmd2"] [])).1.timers =
      ["cmd1", "cmd2"] ∧
     (cleanupStaleConnections 200000 (ServerState.mk
        [("c1", ClientState.mk true 0 0 0 (RateLimitState.mk 0 0))]
        ["cmd1", "cmd2"] ["cmd1", "cmd2"] [])).2 = [] ∧
     (firePendingTimeout "cmd1" (ServerState.mk
        [("c1", ClientState.mk true 0 0 0 (RateLimitState.mk 0 0))]
        ["cmd1", "cmd2"] ["cmd1", "cmd2"] [])).2 =
      [Resolution.rejectedTimeout "cmd1"]) :=
  ⟨by decide,
   C2_disconnect_leaves_pendings "c1" 200000 (ServerState.mk
      [("c1", ClientState.mk true 0 0 0 (RateLimitState.mk 0 0))]
      ["cmd1", "cmd2"] ["cmd1", "cmd2"] []) "cmd1" (by decide)⟩

/-! ### Claim C3 — validation versus the retry path -/

/-- A single non-retryable failing attempt exits the loop at once, with one
recorded failure. -/
theorem retryLoop_stop {T : Type} (cfg : RetryManagerConfig) (now : Int)
    (strategy : RetryStrategy) (key : String)
    (executor : Nat → Except ErrorCode T) (cb : CBMap) (retryCount : Nat)
    (e : ErrorCode) (hex : executor retryCount = .error e)
    (hstop : shouldRetry e retryCount strategy = false) :
    retryLoop cfg now strategy key executor cb retryCount =
      { result := .error (.opFailed e),
        cb := recordFailure cfg now cb key, attempts := retryCount + 1 } := by
  rw [retryLoop, hex]
  simp [hstop]

/-- Counterexample to claim C3: the tools/call branch of
`handleMCPProtocol` performs no validation at all.  The tool name
`browser_frobnicate` maps to the kind `frobnicate`, which is NOT in the
closed enumeration, yet with one client connected the command is handed to
`executeWithRetry`: the operation runs (attempt count 1) and the circuit
breaker records a failure for the signature — the retry path is entered for
an unknown kind instead of a synchronous rejection. -/
theorem C3_counterexample :
    validTypes.contains "frobnicate" = false ∧
    replaceOnce "browser_frobnicate" "browser_" = "frobnicate" ∧
    handleMCPToolCall (T := Unit) createRetryManagerConfig 0
      "browser_frobnicate" "p" (fun _ => .error .UNKNOWN)
      (ServerState.mk
        [("c1", ClientState.mk true 0 0 0 (RateLimitState.mk 0 0))] [] [] [])
      [] =
      (.err (.opFailed .UNKNOWN),
       [("frobnicate_p", CircuitEntry.mk 1 0 CBState.CLOSED)], 1) := by
  refine ⟨by decide, by decide, ?_⟩
  have hloop := retryLoop_stop (T := Unit) createRetryManagerConfig 0
    (getRetryStrategy createRetryManagerConfig.errorConfig "frobnicate")
    (circuitBreakerKey "frobnicate" "p") (fun _ => .error .UNKNOWN) [] 0
    .UNKNOWN rfl (by decide)
  simp only [handleMCPToolCall, executeWithRetry]
  rw [if_neg (by decide), if_neg (by decide)]
  rw [show replaceOnce "browser_frobnicate" "browser_" = "frobnicate" from by decide]
  rw [show (isCircuitBreakerOpen createRetryManagerConfig 0 ([] : CBMap)
    (circuitBreakerKey "frobnicate" "p")).2 = [] from rfl]
  rw [hloop]
  refine Prod.ext ?_ (Prod.ext ?_ ?_) <;> decide

/-- Claim C3 as amended: validation does guard the WebSocket `command`
frame path — if the built command's kind is outside the closed enumeration
or its params are not a truthy object, `handleCommand` rejects it
synchronously (an INVALID_PARAMS error frame) with the server state
entirely unchanged: nothing is enqueued and no rate-limit budget is
consumed.  (That path never reaches the Retry Orchestrator even for valid
commands — it enqueues onto the command queue — while the MCP tools/call
path reaches the Retry Orchestrator with no validation, as the
counterexample shows.) -/
theorem C3_ws_command_validation (now : Int) (clientId genId : String)
    (msg : InboundCommandMsg) (st : ServerState)
    (hinvalid : validateCommand
      (MCPCommand.mk (msg.id.getD genId) (msg.command.getD msg.msgType)
        (msg.params.getD (JVal.jobj [])) (msg.priority.getD "normal")) =
      false) :
    handleCommand now clientId genId msg st =
      (st, CommandOutcome.rejectedInvalid) := by
  simp only [handleCommand]
  rw [if_pos (by simp [hinvalid])]

/-- Witness for the amended C3: the frame carrying kind `frobnicate` is
rejected synchronously with the state untouched. -/
theorem C3_witness :
    validateCommand
      (MCPCommand.mk "x"
        ((some "frobnicate").getD "command")
        ((some (JVal.jobj [])).getD (JVal.jobj []))
        ((none : Option String).getD "normal")) = false ∧
    handleCommand 0 "c1" "x"
      (InboundCommandMsg.mk (some "x") (some "frobnicate") "command"
        (some (JVal.jobj [])) none)
      (ServerState.mk
        [("c1", ClientState.mk true 0 0 0 (RateLimitState.mk 0 0))]
        [] [] []) =
      (ServerState.mk
        [("c1", ClientState.mk true 0 0 0 (RateLimitState.mk 0 0))]
        [] [] [], CommandOutcome.rejectedInvalid) :=
  ⟨by decide,
   C3_ws_command_validation 0 "c1" "x"
     (InboundCommandMsg.mk (some "x") (some "frobnicate") "command"
       (some (JVal.jobj [])) none)
     (ServerState.mk
       [("c1", ClientState.mk true 0 0 0 (RateLimitState.mk 0 0))]
       [] [] []) (by decide)⟩

end BrowserMCP
